import Mathlib

/-!
Verification development for the xfetch host-environment fact collector
(`src/xfetch.c`, two build variants concatenated in one translation unit).

The C sources are shallowly embedded: C strings become Lean `String`s
(C strings cannot embed NUL, so `String` values stand for the full byte
content up to the terminator), `char*` results that may be `NULL` become
`Option String`, the external machine state (environment variables,
display-server availability, kernel call results, file contents,
subprocess output) is an explicit record threaded to each probe, and the
fatal-error helper `handle_error` (perror + exit(EXIT_FAILURE)) becomes
`Except.error` carrying the diagnostic message.  Allocation failure
(`malloc`/`strdup` returning NULL) is not modelled: every probe is
analysed under the assumption that allocation succeeds, which is the
regime all of the specification's claims speak about.
-/

namespace Xfetch

/-- Model of C `toupper` in the POSIX locale: ASCII lowercase letters
(codes 97..122) map to uppercase, everything else is unchanged. -/
def toupperChar (c : Char) : Char :=
  if 97 ≤ c.toNat ∧ c.toNat ≤ 122 then Char.ofNat (c.toNat - 32) else c

/-- `capitalize_first` from `src/xfetch.c` lines 314-320: duplicate the
string and upper-case its first character.  On the empty string the C code
overwrites the terminator with `toupper('\0') = '\0'`, giving back the
empty string, which the empty-`data` branch reproduces. -/
def capitalize_first (s : String) : String :=
  match s.data with
  | [] => ""
  | c :: cs => String.mk (toupperChar c :: cs)

/-- Does `needle` occur as a contiguous substring of the list?  This is
the boolean content of C `strstr(hay, needle) != NULL`. -/
def strstrList (needle : List Char) : List Char → Bool
  | [] => needle.isPrefixOf ([] : List Char)
  | c :: t => needle.isPrefixOf (c :: t) || strstrList needle t

/-- C `strstr(hay, needle) != NULL` on strings. -/
def strstr (hay needle : String) : Bool :=
  strstrList needle.data hay.data

/-- Index of the first occurrence of `t`, the content of C `strchr`. -/
def strchrIdx : List Char → Char → Option Nat
  | [], _ => none
  | c :: cs, t => if c = t then some 0 else (strchrIdx cs t).map (· + 1)

/-- Index of the last occurrence of `t`, the content of C `strrchr`. -/
def strrchrIdx : List Char → Char → Option Nat
  | [], _ => none
  | a :: t, c =>
    match strrchrIdx t c with
    | some j => some (j + 1)
    | none => if a = c then some 0 else none

/-- `extract_quoted_string` from `src/xfetch.c` lines 19-34 and 271-283
(both variants have the same body): find the first and the last `"`;
if both exist and the last is strictly after the first, copy the
`end - start - 1` characters following the first quote; else NULL. -/
def extract_quoted_string (line : String) : Option String :=
  match strchrIdx line.data '"', strrchrIdx line.data '"' with
  | some i, some j =>
    if i < j then some (String.mk ((line.data.drop (i + 1)).take (j - i - 1)))
    else none
  | _, _ => none

/-- `extract_version_number` from `src/xfetch.c` lines 121-139: advance
past every non-digit, then copy the maximal run of digits and dots. -/
def extract_version_number (s : String) : String :=
  String.mk (((s.data.dropWhile (fun c => !c.isDigit)).takeWhile
    (fun c => c.isDigit || c == '.')))

/-- The `buf[strcspn(buf, "\n")] = '\0'` idiom used throughout the C
sources: truncate a captured line at its first newline. -/
def chomp (s : String) : String :=
  String.mk (s.data.takeWhile (fun c => c != '\n'))

/-- `get_uptime`'s arithmetic and formatting (`src/xfetch.c` lines
395-412), factored over the uptime second count: days by division by
60*60*24, hours and minutes by division and remainder, rendered with the
day component only when `days > 0`. -/
def format_uptime (s : Nat) : String :=
  let days := s / (60 * 60 * 24)
  let hours := (s / (60 * 60)) % 24
  let minutes := (s / 60) % 60
  if days > 0 then
    toString days ++ " days, " ++ toString hours ++ " hours, " ++
      toString minutes ++ " minutes"
  else
    toString hours ++ " hours, " ++ toString minutes ++ " minutes"

/-- The part of `struct utsname` the program reads. -/
structure Utsname where
  sysname : String
  release : String
  nodename : String

/-- The part of `struct sysinfo` the program reads.  The kernel uptime
count is non-negative, so it is carried as a `Nat`. -/
structure Sysinfo where
  uptime : Nat

/-- The external state visible to the environment- and display-backed
probes: `vars` is `getenv`, `xOpen` tells whether `XOpenDisplay(NULL)`
yields a connection, `wlConnect` whether `wl_display_connect(NULL)` does,
and `netWmName` is the root window's `_NET_WM_NAME` value when the whole
atom/property query chain of the X11 branch succeeds (`none` when any
step of it fails). -/
structure Env where
  vars : String → Option String
  xOpen : Bool
  wlConnect : Bool
  netWmName : Option String

/-- The full machine state a run of the display-server variant observes.
`uname`/`sysinfo` are `none` when the corresponding system call fails;
`osRelease` is the line list of `/etc/os-release` (`none`: open failed);
`unameS`/`unameR` are the raw first output lines of the `popen`ed
`uname -s` / `uname -r` of the first variant (`none`: spawn or read
failed), possibly still carrying their trailing newline. -/
structure World where
  env : Env
  uname : Option Utsname
  sysinfo : Option Sysinfo
  osRelease : Option (List String)
  unameS : Option String
  unameR : Option String

/-- `get_system_info` (`src/xfetch.c` lines 247-253): a failing
`uname(2)` reaches `handle_error`, which prints the diagnostic and exits
non-zero — modelled as `Except.error` with the `perror` message. -/
def get_system_info (w : World) : Except String Utsname :=
  match w.uname with
  | some u => Except.ok u
  | none => Except.error "Error initializing system information"

/-- `get_system_runtime_info` (`src/xfetch.c` lines 256-262): a failing
`sysinfo(2)` likewise aborts through `handle_error`. -/
def get_system_runtime_info (w : World) : Except String Sysinfo :=
  match w.sysinfo with
  | some si => Except.ok si
  | none => Except.error "Error retrieving system runtime information"

/-- Display-variant `get_os_name` (`src/xfetch.c` lines 286-302): scan
`/etc/os-release` for the first line whose first 12 characters equal
`PRETTY_NAME=` (the `strncmp(line, "PRETTY_NAME=", 12) == 0` test) and
apply the quoted-string extractor; `none` when the open fails, no line
matches, or the extraction fails. -/
def get_os_name (w : World) : Option String :=
  match w.osRelease with
  | none => none
  | some lines =>
    match lines.find? (fun l => ("PRETTY_NAME=" : String).data.isPrefixOf l.data) with
    | some l => extract_quoted_string l
    | none => none

/-- `get_kernel_info` (`src/xfetch.c` lines 305-311): `"<sysname> <release>"`. -/
def get_kernel_info (sys : Utsname) : String :=
  sys.sysname ++ " " ++ sys.release

/-- First-variant `get_kernel` (`src/xfetch.c` lines 82-118): run
`uname -s` and `uname -r`, fail to NULL when either pipe or read fails,
truncate each captured line at its newline and join with one space. -/
def get_kernel (w : World) : Option String :=
  match w.unameS, w.unameR with
  | some os, some kr => some (chomp os ++ " " ++ chomp kr)
  | _, _ => none

/-- `get_session_type` (`src/xfetch.c` lines 323-334): capitalized
`XDG_SESSION_TYPE` when set; else "X11" if an X display opens, else
"Wayland" if a Wayland display connects, else "Unknown". -/
def get_session_type (e : Env) : Option String :=
  match e.vars "XDG_SESSION_TYPE" with
  | some s => some (capitalize_first s)
  | none =>
    if e.xOpen then some "X11"
    else if e.wlConnect then some "Wayland"
    else some "Unknown"

/-- `get_desktop_environment` (`src/xfetch.c` lines 337-345):
`XDG_CURRENT_DESKTOP` when set (the C code tests only for a non-NULL
`getenv` result, so a set-but-empty variable is returned as is), else
`DESKTOP_SESSION` when set, else the sentinel "Unknown". -/
def get_desktop_environment (e : Env) : Option String :=
  match e.vars "XDG_CURRENT_DESKTOP" with
  | some d => some d
  | none =>
    match e.vars "DESKTOP_SESSION" with
    | some s => some s
    | none => some "Unknown"

/-- `get_window_manager` (`src/xfetch.c` lines 348-392).  The branch
condition reads `XDG_SESSION_TYPE` directly from the environment and
compares it with `strcmp` against the exact lowercase literals, so an
unset variable falls through both branches to "Unknown". -/
def get_window_manager (e : Env) : Option String :=
  match e.vars "XDG_SESSION_TYPE" with
  | none => some "Unknown"
  | some st =>
    if st = "wayland" then
      let desktop := e.vars "XDG_CURRENT_DESKTOP"
      let session := e.vars "DESKTOP_SESSION"
      if (match desktop with
          | some d => strstr d "GNOME"
          | none => false) then
        some "Mutter (Wayland)"
      else if (match desktop, session with
          | some d, some s => strstr d "KDE" && (strstr s "plasma" || strstr s "kde")
          | _, _ => false) then
        some "KWin (Wayland)"
      else
        some "Wayland Compositor"
    else if st = "x11" then
      if e.xOpen then
        match e.netWmName with
        | some name => some name
        | none => some "Unknown WM"
      else some "Unknown WM"
    else some "Unknown"

/-- `get_uptime` (`src/xfetch.c` lines 395-412) applied to the sysinfo
record: the body is exactly the `format_uptime` arithmetic on the
`uptime` field, returned through a malloc'd buffer. -/
def get_uptime (si : Sysinfo) : Option String :=
  some (format_uptime si.uptime)

/-- Display-variant `main` (`src/xfetch.c` lines 415-445): the two fatal
probes run first (each aborting through `handle_error` on failure), then
every remaining probe runs and one labeled line per fact is emitted.
The `getD` defaults are unreachable: every Option-typed probe below is
proved total (see the totality theorem), and a missing OS name prints
the "Unknown" placeholder exactly as in the source. -/
def xfetch_main (w : World) : Except String (List String) :=
  match get_system_info w with
  | Except.error msg => Except.error msg
  | Except.ok sys =>
    match get_system_runtime_info w with
    | Except.error msg => Except.error msg
    | Except.ok rt =>
      Except.ok
        [ "Hostname: " ++ sys.nodename,
          "Operating System: " ++ (get_os_name w).getD "Unknown",
          "Kernel: " ++ get_kernel_info sys,
          "Session Type: " ++ (get_session_type w.env).getD "",
          "Desktop Environment: " ++ (get_desktop_environment w.env).getD "",
          "Window Manager/Compositor: " ++ (get_window_manager w.env).getD "",
          "Uptime: " ++ (get_uptime rt).getD "" ]

/-- Connection events on the display servers, for resource accounting. -/
inductive ConnEvent
  | openX
  | closeX
  | openWl
  | closeWl
deriving DecidableEq

/-- Number of occurrences of one event in a trace. -/
def countEv (ev : ConnEvent) : List ConnEvent → Nat
  | [] => 0
  | e :: t => (if e = ev then 1 else 0) + countEv ev t

/-- A trace is balanced when every opened connection is also closed. -/
def opensBalanced (t : List ConnEvent) : Bool :=
  decide (countEv ConnEvent.openX t = countEv ConnEvent.closeX t) &&
  decide (countEv ConnEvent.openWl t = countEv ConnEvent.closeWl t)

/-- `get_session_type` instrumented with its display-connection events
(`src/xfetch.c` lines 323-334).  `if (XOpenDisplay(NULL)) return
strdup("X11");` opens a connection on success and returns without any
`XCloseDisplay`; likewise `wl_display_connect` without
`wl_display_disconnect`.  A failed open creates no connection. -/
def get_session_type_trace (e : Env) : Option String × List ConnEvent :=
  match e.vars "XDG_SESSION_TYPE" with
  | some s => (some (capitalize_first s), [])
  | none =>
    if e.xOpen then (some "X11", [ConnEvent.openX])
    else if e.wlConnect then (some "Wayland", [ConnEvent.openWl])
    else (some "Unknown", [])

/-- `get_window_manager` instrumented with its display-connection events
(`src/xfetch.c` lines 348-392).  The Wayland and fallthrough branches
open nothing and return the same value as the plain embedding; the X11
branch pairs its successful `XOpenDisplay` with the `XCloseDisplay` on
line 387, which dominates both returns of that branch. -/
def get_window_manager_trace (e : Env) : Option String × List ConnEvent :=
  match e.vars "XDG_SESSION_TYPE" with
  | none => (some "Unknown", [])
  | some st =>
    if st = "wayland" then (get_window_manager e, [])
    else if st = "x11" then
      if e.xOpen then
        (match e.netWmName with
         | some name => some name
         | none => some "Unknown WM",
         [ConnEvent.openX, ConnEvent.closeX])
      else (some "Unknown WM", [])
    else (some "Unknown", [])

/-! ### Concrete external states used as test inputs -/

/-- No environment variables set, an X11 display available. -/
def envXOnly : Env := ⟨fun _ => none, true, false, none⟩

/-- `XDG_SESSION_TYPE` unset, no X11 display, a Wayland display
available, `XDG_CURRENT_DESKTOP=GNOME`: the session type resolves to
Wayland through the connection fallback. -/
def envWlFallbackGnome : Env :=
  ⟨fun k => if k = "XDG_CURRENT_DESKTOP" then some "GNOME" else none,
   false, true, none⟩

/-- Neither `XDG_CURRENT_DESKTOP` nor `DESKTOP_SESSION` set. -/
def envBothUnset : Env := ⟨fun _ => none, false, false, none⟩

/-- `XDG_CURRENT_DESKTOP` set but empty, `DESKTOP_SESSION=KDE`. -/
def envEmptyDesk : Env :=
  ⟨fun k => if k = "XDG_CURRENT_DESKTOP" then some "" else
      if k = "DESKTOP_SESSION" then some "KDE" else none,
   false, false, none⟩

/-- `XDG_CURRENT_DESKTOP` holding a value with a trailing newline. -/
def envNewlineDesk : Env :=
  ⟨fun k => if k = "XDG_CURRENT_DESKTOP" then some "GNOME\n" else none,
   false, false, none⟩

/-- `XDG_SESSION_TYPE=wayland`, `XDG_CURRENT_DESKTOP=GNOME`. -/
def envGnomeWayland : Env :=
  ⟨fun k => if k = "XDG_SESSION_TYPE" then some "wayland" else
      if k = "XDG_CURRENT_DESKTOP" then some "GNOME" else none,
   false, false, none⟩

/-- A machine state on which both fatal system calls fail. -/
def worldFatal : World := ⟨envBothUnset, none, none, none, none, none⟩

/-! ### Claim C2: session-type fallback chain -/

/-- C2 (confirmed): `get_session_type` returns the capitalized
`XDG_SESSION_TYPE` whenever the variable is set; with the variable
unset it returns "X11" when an X11 display opens, else "Wayland" when a
Wayland display connects, else "Unknown" — the fallbacks in exactly
this order. -/
theorem c2_session_type_chain :
    ∀ e : Env,
      (∀ s, e.vars "XDG_SESSION_TYPE" = some s →
        get_session_type e = some (capitalize_first s)) ∧
      (e.vars "XDG_SESSION_TYPE" = none → e.xOpen = true →
        get_session_type e = some "X11") ∧
      (e.vars "XDG_SESSION_TYPE" = none → e.xOpen = false → e.wlConnect = true →
        get_session_type e = some "Wayland") ∧
      (e.vars "XDG_SESSION_TYPE" = none → e.xOpen = false → e.wlConnect = false →
        get_session_type e = some "Unknown") := by
  intro e
  refine ⟨?_, ?_, ?_, ?_⟩
  · intro s h; simp [get_session_type, h]
  · intro h hx; simp [get_session_type, h, hx]
  · intro h hx hw; simp [get_session_type, h, hx, hw]
  · intro h hx hw; simp [get_session_type, h, hx, hw]

/-- Witness for C2: on a state with the variable unset and an X11
display available the probe answers "X11". -/
theorem c2_session_type_chain_witness :
    get_session_type envXOnly = some "X11" :=
  (c2_session_type_chain envXOnly).2.1 rfl rfl

/-! ### Claim C4: uptime decomposition and formatting -/

/-- C4 (confirmed): `format_uptime` decomposes the second count with
`days = s / 86400`, `hours = (s / 3600) % 24`, `minutes = (s / 60) % 60`
and renders the day component exactly when `days > 0`; the three
spec examples evaluate as stated. -/
theorem c4_format_uptime :
    (∀ s : Nat, format_uptime s =
      if s / 86400 > 0 then
        toString (s / 86400) ++ " days, " ++ toString ((s / 3600) % 24) ++
          " hours, " ++ toString ((s / 60) % 60) ++ " minutes"
      else
        toString ((s / 3600) % 24) ++ " hours, " ++
          toString ((s / 60) % 60) ++ " minutes") ∧
    format_uptime 0 = "0 hours, 0 minutes" ∧
    format_uptime 90000 = "1 days, 1 hours, 0 minutes" ∧
    format_uptime 3661 = "1 hours, 1 minutes" :=
  ⟨fun _ => rfl, by decide, by decide, by decide⟩

/-! ### Claim C6: desktop-environment fallback -/

/-- Counterexample to C6 as stated: with both variables unset the probe
returns the sentinel "Unknown", not an absent value; and with
`XDG_CURRENT_DESKTOP` set but empty it returns the empty string rather
than falling back to `DESKTOP_SESSION`. -/
theorem c6_counterexample :
    get_desktop_environment envBothUnset = some "Unknown" ∧
    get_desktop_environment envBothUnset ≠ none ∧
    get_desktop_environment envEmptyDesk = some "" ∧
    get_desktop_environment envEmptyDesk ≠ some "KDE" := by decide

/-- C6 (corrected): the desktop probe returns `XDG_CURRENT_DESKTOP`
whenever the variable is set — empty or not — else `DESKTOP_SESSION`
when set, else the present sentinel "Unknown" (never an absent value). -/
theorem c6_amended_desktop :
    ∀ e : Env,
      (∀ v, e.vars "XDG_CURRENT_DESKTOP" = some v →
        get_desktop_environment e = some v) ∧
      (e.vars "XDG_CURRENT_DESKTOP" = none →
        ∀ v, e.vars "DESKTOP_SESSION" = some v →
          get_desktop_environment e = some v) ∧
      (e.vars "XDG_CURRENT_DESKTOP" = none → e.vars "DESKTOP_SESSION" = none →
        get_desktop_environment e = some "Unknown") := by
  intro e
  refine ⟨?_, ?_, ?_⟩ <;> intros <;> simp_all [get_desktop_environment]

/-- Witness for the amended C6 at a concrete state. -/
theorem c6_amended_desktop_witness :
    get_desktop_environment envGnomeWayland = some "GNOME" :=
  (c6_amended_desktop envGnomeWayland).1 "GNOME" rfl

/-! ### Claim C10: the four display-variant probes are total -/

/-- C10 (confirmed): in the display-server variant the session-type,
desktop-environment, window-manager and uptime probes produce a present
value on every external state — each failure path ends in a sentinel
such as "Unknown", "Unknown WM" or "Wayland Compositor". -/
theorem c10_probes_total :
    ∀ (e : Env) (si : Sysinfo),
      (get_session_type e).isSome = true ∧
      (get_desktop_environment e).isSome = true ∧
      (get_window_manager e).isSome = true ∧
      (get_uptime si).isSome = true := by
  intro e si
  refine ⟨?_, ?_, ?_, rfl⟩
  · unfold get_session_type
    cases e.vars "XDG_SESSION_TYPE" with
    | none => dsimp only; split_ifs <;> rfl
    | some s => rfl
  · unfold get_desktop_environment
    cases e.vars "XDG_CURRENT_DESKTOP" with
    | none => dsimp only; cases e.vars "DESKTOP_SESSION" <;> rfl
    | some d => rfl
  · unfold get_window_manager
    cases e.vars "XDG_SESSION_TYPE" with
    | none => rfl
    | some st =>
      dsimp only
      split_ifs <;> first | rfl | (cases e.netWmName <;> rfl)

/-! ### Claim C1: Wayland window-manager heuristics -/

/-- Counterexample to C1 as stated: with `XDG_SESSION_TYPE` unset, the
Wayland connection fallback succeeding (so the resolved session type is
"Wayland") and `XDG_CURRENT_DESKTOP=GNOME`, the window-manager probe
returns "Unknown", not "Mutter (Wayland)": it re-reads the raw variable
instead of the resolved session type. -/
theorem c1_counterexample :
    get_session_type envWlFallbackGnome = some "Wayland" ∧
    envWlFallbackGnome.vars "XDG_CURRENT_DESKTOP" = some "GNOME" ∧
    strstr "GNOME" "GNOME" = true ∧
    get_window_manager envWlFallbackGnome = some "Unknown" ∧
    get_window_manager envWlFallbackGnome ≠ some "Mutter (Wayland)" := by
  decide

/-- C1 (corrected): the Wayland heuristics apply only when the raw
`XDG_SESSION_TYPE` variable equals "wayland" exactly; then GNOME in
`XDG_CURRENT_DESKTOP` gives "Mutter (Wayland)", else KDE there combined
with plasma/kde in `DESKTOP_SESSION` gives "KWin (Wayland)", else
"Wayland Compositor".  When the variable is unset — even if the
session-type probe would resolve Wayland by connection fallback — the
probe returns "Unknown". -/
theorem c1_amended_wayland_wm :
    (∀ (e : Env) (d : String),
      e.vars "XDG_SESSION_TYPE" = some "wayland" →
      e.vars "XDG_CURRENT_DESKTOP" = some d → strstr d "GNOME" = true →
      get_window_manager e = some "Mutter (Wayland)") ∧
    (∀ (e : Env) (d s : String),
      e.vars "XDG_SESSION_TYPE" = some "wayland" →
      e.vars "XDG_CURRENT_DESKTOP" = some d → strstr d "GNOME" = false →
      e.vars "DESKTOP_SESSION" = some s →
      (strstr d "KDE" && (strstr s "plasma" || strstr s "kde")) = true →
      get_window_manager e = some "KWin (Wayland)") ∧
    (∀ e : Env,
      e.vars "XDG_SESSION_TYPE" = some "wayland" →
      (∀ d, e.vars "XDG_CURRENT_DESKTOP" = some d →
        strstr d "GNOME" = false ∧
        ∀ s, e.vars "DESKTOP_SESSION" = some s →
          (strstr d "KDE" && (strstr s "plasma" || strstr s "kde")) = false) →
      get_window_manager e = some "Wayland Compositor") ∧
    (∀ e : Env, e.vars "XDG_SESSION_TYPE" = none →
      get_window_manager e = some "Unknown") := by
  refine ⟨?_, ?_, ?_, ?_⟩
  · intro e d h1 hd hg
    simp [get_window_manager, h1, hd, hg]
  · intro e d s h1 hd hg hs hk
    simp [get_window_manager, h1, hd, hg, hs, hk]
  · intro e h1 hcond
    rcases hd : e.vars "XDG_CURRENT_DESKTOP" with _ | d
    · rcases hs : e.vars "DESKTOP_SESSION" with _ | s <;>
        simp [get_window_manager, h1, hd, hs]
    · obtain ⟨hg, hk⟩ := hcond d hd
      rcases hs : e.vars "DESKTOP_SESSION" with _ | s
      · simp [get_window_manager, h1, hd, hs, hg]
      · simp [get_window_manager, h1, hd, hs, hg]
        intro hkd
        have hks := hk s hs
        rw [hkd] at hks
        simpa using hks
  · intro e h1
    simp [get_window_manager, h1]

/-- Witness for the amended C1: the end-to-end scenario of the spec,
`XDG_SESSION_TYPE=wayland` and `XDG_CURRENT_DESKTOP=GNOME` giving
"Mutter (Wayland)". -/
theorem c1_amended_wayland_wm_witness :
    get_window_manager envGnomeWayland = some "Mutter (Wayland)" :=
  c1_amended_wayland_wm.1 envGnomeWayland "GNOME" rfl rfl (by decide)

/-! ### Claim C7: fatal versus degradable failures -/

/-- C7 (confirmed): in the display-server variant a failing `uname(2)`
or `sysinfo(2)` aborts the whole run with the diagnostic (modelled as
`Except.error`), in that checking order, while for every machine state
on which those two calls succeed the run completes normally — every
other probe failure only degrades its fact. -/
theorem c7_fatal_vs_degradable :
    (∀ w : World, w.uname = none →
      xfetch_main w = Except.error "Error initializing system information") ∧
    (∀ (w : World) (u : Utsname), w.uname = some u → w.sysinfo = none →
      xfetch_main w = Except.error "Error retrieving system runtime information") ∧
    (∀ (w : World) (u : Utsname) (si : Sysinfo),
      w.uname = some u → w.sysinfo = some si →
      ∃ out, xfetch_main w = Except.ok out) := by
  refine ⟨?_, ?_, ?_⟩
  · intro w h
    simp [xfetch_main, get_system_info, h]
  · intro w u h1 h2
    simp [xfetch_main, get_system_info, get_system_runtime_info, h1, h2]
  · intro w u si h1 h2
    simp only [xfetch_main, get_system_info, get_system_runtime_info, h1, h2]
    exact ⟨_, rfl⟩

/-- Witness for C7: on a state where `uname(2)` fails the run aborts
with the corresponding diagnostic. -/
theorem c7_fatal_vs_degradable_witness :
    xfetch_main worldFatal = Except.error "Error initializing system information" :=
  c7_fatal_vs_degradable.1 worldFatal rfl

/-! ### Claim C9: display connections closed on every exit path -/

/-- C9 (code bug): `get_session_type`'s X11 fallback opens a display
connection with `XOpenDisplay(NULL)` and returns "X11" without ever
calling `XCloseDisplay` (line 330; the Wayland fallback on line 331
leaks the same way), so its trace is unbalanced — while
`get_window_manager` does close its connection on every exit path. -/
theorem c9_session_type_leaks_connection :
    get_session_type_trace envXOnly = (some "X11", [ConnEvent.openX]) ∧
    opensBalanced [ConnEvent.openX] = false ∧
    (∀ e : Env, opensBalanced (get_window_manager_trace e).2 = true) := by
  refine ⟨rfl, rfl, ?_⟩
  intro e
  unfold get_window_manager_trace
  cases e.vars "XDG_SESSION_TYPE" with
  | none => rfl
  | some st =>
    dsimp only
    split_ifs <;> rfl

/-! ### Claim C3: quoted-substring extraction -/

/-- `i` is the index of the first occurrence of `c` in `l`. -/
def IsFirstAt (l : List Char) (c : Char) (i : Nat) : Prop :=
  l.get? i = some c ∧ ∀ k, k < i → l.get? k ≠ some c

/-- `j` is the index of the last occurrence of `c` in `l`. -/
def IsLastAt (l : List Char) (c : Char) (j : Nat) : Prop :=
  l.get? j = some c ∧ ∀ k, k < l.length → j < k → l.get? k ≠ some c

instance decIsFirstAt (l : List Char) (c : Char) (i : Nat) :
    Decidable (IsFirstAt l c i) :=
  inferInstanceAs (Decidable (_ ∧ _))

instance decIsLastAt (l : List Char) (c : Char) (j : Nat) :
    Decidable (IsLastAt l c j) :=
  inferInstanceAs (Decidable (_ ∧ _))

theorem strchrIdx_none_iff (l : List Char) (c : Char) :
    strchrIdx l c = none ↔ c ∉ l := by
  induction l with
  | nil => simp [strchrIdx]
  | cons a t ih =>
    by_cases h : a = c
    · simp [strchrIdx, h]
    · simp only [strchrIdx, if_neg h, Option.map_eq_none', ih, List.mem_cons]
      constructor
      · intro hn hc
        rcases hc with hc | hc
        · exact h hc.symm
        · exact hn hc
      · intro hn hc
        exact hn (Or.inr hc)

theorem strchrIdx_isFirstAt (l : List Char) (c : Char) (i : Nat)
    (h : strchrIdx l c = some i) : IsFirstAt l c i := by
  induction l generalizing i with
  | nil => simp [strchrIdx] at h
  | cons a t ih =>
    by_cases ha : a = c
    · simp only [strchrIdx, if_pos ha, Option.some.injEq] at h
      subst h
      exact ⟨by simp [ha], by omega⟩
    · simp only [strchrIdx, if_neg ha, Option.map_eq_some'] at h
      obtain ⟨i', hi', rfl⟩ := h
      obtain ⟨h1, h2⟩ := ih i' hi'
      refine ⟨by simpa using h1, ?_⟩
      intro k hk
      cases k with
      | zero =>
        simp only [List.get?_cons_zero, ne_eq, Option.some.injEq]
        exact ha
      | succ k' =>
        simpa using h2 k' (by omega)

theorem isFirstAt_unique {l : List Char} {c : Char} {i i' : Nat}
    (h : IsFirstAt l c i) (h' : IsFirstAt l c i') : i = i' := by
  rcases lt_trichotomy i i' with hlt | he | hgt
  · exact absurd h.1 (h'.2 i hlt)
  · exact he
  · exact absurd h'.1 (h.2 i' hgt)

theorem strchrIdx_of_isFirstAt {l : List Char} {c : Char} {i : Nat}
    (h : IsFirstAt l c i) : strchrIdx l c = some i := by
  have hc : c ∈ l := List.get?_mem h.1
  cases hh : strchrIdx l c with
  | none => exact absurd hc ((strchrIdx_none_iff l c).mp hh)
  | some i0 => rw [isFirstAt_unique (strchrIdx_isFirstAt l c i0 hh) h]

theorem strrchrIdx_none_iff (l : List Char) (c : Char) :
    strrchrIdx l c = none ↔ c ∉ l := by
  induction l with
  | nil => simp [strrchrIdx]
  | cons a t ih =>
    cases hh : strrchrIdx t c with
    | some j =>
      have hct : c ∈ t := by
        by_contra hc
        rw [ih.mpr hc] at hh
        cases hh
      simp [strrchrIdx, hh, hct]
    | none =>
      have hct : c ∉ t := ih.mp hh
      by_cases ha : a = c
      · simp [strrchrIdx, hh, ha]
      · simp only [strrchrIdx, hh, if_neg ha, List.mem_cons]
        constructor
        · intro _ hc
          rcases hc with hc | hc
          · exact ha hc.symm
          · exact hct hc
        · intro _
          trivial

theorem strrchrIdx_last (l : List Char) (c : Char) (j : Nat)
    (h : strrchrIdx l c = some j) :
    l.get? j = some c ∧ ∀ k, j < k → l.get? k ≠ some c := by
  induction l generalizing j with
  | nil => simp [strrchrIdx] at h
  | cons a t ih =>
    cases hh : strrchrIdx t c with
    | some j' =>
      rw [strrchrIdx, hh] at h
      injection h with h
      subst h
      obtain ⟨h1, h2⟩ := ih j' hh
      refine ⟨by simpa using h1, ?_⟩
      intro k hk
      cases k with
      | zero => omega
      | succ k' => simpa using h2 k' (by omega)
    | none =>
      rw [strrchrIdx, hh] at h
      by_cases ha : a = c
      · rw [if_pos ha] at h
        injection h with h
        subst h
        refine ⟨by simp [ha], ?_⟩
        intro k hk
        have hct : c ∉ t := (strrchrIdx_none_iff t c).mp hh
        cases k with
        | zero => omega
        | succ k' =>
          simp only [List.get?_cons_succ, ne_eq]
          intro hg
          exact hct (List.get?_mem hg)
      · rw [if_neg ha] at h
        cases h

theorem isLastAt_unique {l : List Char} {c : Char} {j j' : Nat}
    (h : IsLastAt l c j) (h' : IsLastAt l c j') : j = j' := by
  have hlen : ∀ {k : Nat}, l.get? k = some c → k < l.length := by
    intro k hk
    by_contra hge
    have : l.get? k = none := List.get?_eq_none.mpr (by omega)
    rw [hk] at this
    cases this
  rcases lt_trichotomy j j' with hlt | he | hgt
  · exact absurd h'.1 (h.2 j' (hlen h'.1) hlt)
  · exact he
  · exact absurd h.1 (h'.2 j (hlen h.1) hgt)

theorem strrchrIdx_of_isLastAt {l : List Char} {c : Char} {j : Nat}
    (h : IsLastAt l c j) : strrchrIdx l c = some j := by
  have hc : c ∈ l := List.get?_mem h.1
  cases hh : strrchrIdx l c with
  | none => exact absurd hc ((strrchrIdx_none_iff l c).mp hh)
  | some j0 =>
    obtain ⟨h1, h2⟩ := strrchrIdx_last l c j0 hh
    rw [isLastAt_unique ⟨h1, fun k _ hk => h2 k hk⟩ h]

/-- C3 (confirmed): `extract_quoted_string` returns exactly the
substring strictly between the first and last quote when both exist and
the last is strictly after the first, `none` otherwise; the three spec
examples (including last-quote-wins on a line with three quotes)
evaluate as documented. -/
theorem c3_extract_quoted :
    (∀ (line : String) (i j : Nat),
      IsFirstAt line.data '"' i → IsLastAt line.data '"' j → i < j →
      extract_quoted_string line =
        some (String.mk ((line.data.drop (i + 1)).take (j - i - 1)))) ∧
    (∀ line : String, '"' ∉ line.data → extract_quoted_string line = none) ∧
    (∀ (line : String) (i j : Nat),
      IsFirstAt line.data '"' i → IsLastAt line.data '"' j → ¬ i < j →
      extract_quoted_string line = none) ∧
    extract_quoted_string "PRETTY_NAME=\"Ubuntu 22.04\"" = some "Ubuntu 22.04" ∧
    extract_quoted_string "NO_QUOTES_HERE" = none ∧
    extract_quoted_string "A=\"B\"C\"" = some "B\"C" := by
  refine ⟨?_, ?_, ?_, by decide, by decide, by decide⟩
  · intro line i j hf hl hij
    unfold extract_quoted_string
    rw [strchrIdx_of_isFirstAt hf, strrchrIdx_of_isLastAt hl]
    dsimp only
    rw [if_pos hij]
  · intro line h
    unfold extract_quoted_string
    rw [(strchrIdx_none_iff _ _).mpr h]
  · intro line i j hf hl hij
    unfold extract_quoted_string
    rw [strchrIdx_of_isFirstAt hf, strrchrIdx_of_isLastAt hl]
    dsimp only
    rw [if_neg hij]

/-- Witness for C3: on the boundary line `A="B"C"` the first quote sits
at index 2 and the last at index 6, and the probe returns the three
characters strictly between them. -/
theorem c3_extract_quoted_witness :
    extract_quoted_string "A=\"B\"C\"" =
      some (String.mk ((("A=\"B\"C\"" : String).data.drop 3).take 3)) :=
  c3_extract_quoted.1 "A=\"B\"C\"" 2 6 (by decide) (by decide) (by decide)

/-! ### Claim C5: leading version-number extraction -/

theorem digit_run_ne_nil (l : List Char) (h : ∃ c ∈ l, c.isDigit = true) :
    (l.dropWhile (fun c => !c.isDigit)).takeWhile
      (fun c => c.isDigit || c == '.') ≠ [] := by
  induction l with
  | nil =>
    simp at h
  | cons a t ih =>
    by_cases ha : a.isDigit = true
    · rw [List.dropWhile_cons_of_neg (by simp [ha])]
      rw [List.takeWhile_cons_of_pos (by simp [ha])]
      simp
    · rw [List.dropWhile_cons_of_pos (by simp [Bool.not_eq_true] at ha ⊢; exact ha)]
      apply ih
      rcases h with ⟨c, hc, hdig⟩
      rcases List.mem_cons.mp hc with rfl | hct
      · exact absurd hdig ha
      · exact ⟨c, hct, hdig⟩

/-- C5 (confirmed): `extract_version_number` yields a non-empty string
on every input containing at least one ASCII digit and the empty string
— not an absent value — on every digit-free input; the two spec
examples evaluate as stated. -/
theorem c5_version_extraction :
    (∀ s : String, (∃ c ∈ s.data, c.isDigit = true) →
      extract_version_number s ≠ "") ∧
    (∀ s : String, (∀ c ∈ s.data, c.isDigit = false) →
      extract_version_number s = "") ∧
    extract_version_number "bash 5.1.16(1)-release" = "5.1.16" ∧
    extract_version_number "no digits here" = "" := by
  refine ⟨?_, ?_, by decide, by decide⟩
  · intro s h hempty
    apply digit_run_ne_nil s.data h
    have hdata : (extract_version_number s).data = ("" : String).data :=
      congrArg String.data hempty
    simpa [extract_version_number] using hdata
  · intro s h
    unfold extract_version_number
    have hdrop : s.data.dropWhile (fun c => !c.isDigit) = [] :=
      List.dropWhile_eq_nil_iff.mpr (fun x hx => by simp [h x hx])
    rw [hdrop]
    rfl

/-- Witness for C5: an input holding a digit maps to a non-empty
version string. -/
theorem c5_version_extraction_witness :
    extract_version_number "x9" ≠ "" :=
  c5_version_extraction.1 "x9" (by decide)

/-! ### Claim C8: fact values are single-line strings -/

/-- A well-formed fact value in the spec's sense: single-line (hence no
trailing newline) with no embedded NUL. -/
def wellFormedFact (s : String) : Prop :=
  '\n' ∉ s.data ∧ Char.ofNat 0 ∉ s.data

/-- Counterexample to C8 as stated: environment values flow into fact
values verbatim, so a variable whose value carries a trailing newline
produces a fact value that is not a well-formed single-line string. -/
theorem c8_counterexample :
    get_desktop_environment envNewlineDesk = some "GNOME\n" ∧
    ¬ wellFormedFact "GNOME\n" := by
  constructor
  · decide
  · intro h
    exact absurd (by decide : '\n' ∈ ("GNOME\n" : String).data) h.1

theorem toupperChar_ne_newline (c : Char) (h : c ≠ '\n') :
    toupperChar c ≠ '\n' := by
  unfold toupperChar
  split_ifs with hc
  · obtain ⟨h1, h2⟩ := hc
    intro heq
    generalize hg : c.toNat - 32 = k at heq
    have hk1 : 65 ≤ k := by omega
    have hk2 : k ≤ 90 := by omega
    interval_cases k <;> exact absurd heq (by decide)
  · exact h

theorem capitalize_first_no_newline (s : String) (h : '\n' ∉ s.data) :
    '\n' ∉ (capitalize_first s).data := by
  unfold capitalize_first
  cases hs : s.data with
  | nil => simp
  | cons c cs =>
    rw [hs] at h
    simp only [List.mem_cons, not_or] at h ⊢
    exact ⟨fun he => toupperChar_ne_newline c (fun hce => h.1 (hce ▸ rfl)) he.symm, h.2⟩

theorem chomp_no_newline (s : String) : '\n' ∉ (chomp s).data := by
  unfold chomp
  intro hmem
  have := List.mem_takeWhile_imp hmem
  simp at this

/-- The shape in which `fgets` delivers a captured line: a newline can
occur only as the line's final character (`fgets` stops reading right
after the first newline).  Every line the file-backed reader hands to
the extractor has this shape. -/
def NewlineOnlyLast (l : List Char) : Prop :=
  ∀ k, k < l.length → l.get? k = some '\n' → k + 1 = l.length

instance decNewlineOnlyLast (l : List Char) : Decidable (NewlineOnlyLast l) :=
  inferInstanceAs
    (Decidable (∀ k, k < l.length → l.get? k = some '\n' → k + 1 = l.length))

/-- On any `fgets`-shaped line, a successfully extracted quoted value is
newline-free: the value sits strictly between the first and the last
quote, and the last quote lies strictly before the terminal newline, the
only place a newline can be. -/
theorem extract_quoted_no_newline (line v : String)
    (hshape : NewlineOnlyLast line.data)
    (h : extract_quoted_string line = some v) : '\n' ∉ v.data := by
  unfold extract_quoted_string at h
  rcases hf : strchrIdx line.data '"' with _ | i <;> rw [hf] at h
  · cases h
  · rcases hl : strrchrIdx line.data '"' with _ | j <;> rw [hl] at h
    · cases h
    · dsimp only at h
      by_cases hij : i < j
      · rw [if_pos hij] at h
        injection h with h
        subst h
        intro hmem
        have hmem2 : '\n' ∈ (line.data.drop (i + 1)).take (j - i - 1) := hmem
        obtain ⟨m, hm⟩ := List.mem_iff_get?.mp hmem2
        have hmlt : m < j - i - 1 := by
          by_contra hge
          have hlen : ((line.data.drop (i + 1)).take (j - i - 1)).length ≤ m := by
            have := List.length_take (j - i - 1) (line.data.drop (i + 1))
            omega
          rw [List.get?_eq_none.mpr hlen] at hm
          cases hm
        rw [List.get?_take hmlt, List.get?_drop] at hm
        have hklen : i + 1 + m < line.data.length := by
          by_contra hge
          rw [List.get?_eq_none.mpr (by omega)] at hm
          cases hm
        have hkend := hshape (i + 1 + m) hklen hm
        have hjq := (strrchrIdx_last line.data '"' j hl).1
        have hjlen : j < line.data.length := by
          by_contra hge
          rw [List.get?_eq_none.mpr (by omega)] at hjq
          cases hjq
        omega
      · rw [if_neg hij] at h
        cases h

/-- An `/etc/os-release` state for exercising the file-backed reader. -/
def worldOsRelease : World :=
  ⟨envBothUnset, none, none,
   some ["NAME=\"Ubuntu\"", "PRETTY_NAME=\"Ubuntu 22.04\""], none, none⟩

/-- C8 (corrected): kernel facts assembled from subprocess output are
newline-free because every captured line is truncated at its first
newline; a quoted value extracted from any `fgets`-shaped file line is
newline-free because the closing quote precedes the terminal newline,
so the file-backed OS-name fact is single-line whenever its lines have
the `fgets` shape; capitalization preserves newline-freedom; but the
environment-backed probes return variable values verbatim, so their
facts are single-line only when the variable values themselves are. -/
theorem c8_amended_single_line :
    (∀ (w : World) (s : String), get_kernel w = some s → '\n' ∉ s.data) ∧
    (∀ line v : String, NewlineOnlyLast line.data →
      extract_quoted_string line = some v → '\n' ∉ v.data) ∧
    (∀ (w : World) (lines : List String), w.osRelease = some lines →
      (∀ l ∈ lines, NewlineOnlyLast l.data) →
      ∀ v, get_os_name w = some v → '\n' ∉ v.data) ∧
    (∀ s : String, '\n' ∉ s.data → '\n' ∉ (capitalize_first s).data) ∧
    (∀ e : Env, (∀ k v, e.vars k = some v → '\n' ∉ v.data) →
      ∀ s, get_desktop_environment e = some s → '\n' ∉ s.data) ∧
    (∀ e : Env, (∀ k v, e.vars k = some v → '\n' ∉ v.data) →
      ∀ s, get_session_type e = some s → '\n' ∉ s.data) := by
  refine ⟨?_, extract_quoted_no_newline, ?_, capitalize_first_no_newline, ?_, ?_⟩
  · intro w s hks
    unfold get_kernel at hks
    rcases hos : w.unameS with _ | os <;> rcases hkr : w.unameR with _ | kr <;>
      rw [hos, hkr] at hks <;> cases hks
    rw [String.data_append, String.data_append]
    intro hmem
    rcases List.mem_append.mp hmem with hmem | hmem
    · rcases List.mem_append.mp hmem with hmem | hmem
      · exact chomp_no_newline os hmem
      · simp at hmem
    · exact chomp_no_newline kr hmem
  · intro w lines hosr hlines v hv
    unfold get_os_name at hv
    rw [hosr] at hv
    dsimp only at hv
    rcases hfind : lines.find?
        (fun l => ("PRETTY_NAME=" : String).data.isPrefixOf l.data) with _ | l <;>
      rw [hfind] at hv
    · cases hv
    · exact extract_quoted_no_newline l v
        (hlines l (List.mem_of_find?_eq_some hfind)) hv
  · intro e he s hds
    unfold get_desktop_environment at hds
    rcases hd : e.vars "XDG_CURRENT_DESKTOP" with _ | d <;> rw [hd] at hds
    · rcases hs : e.vars "DESKTOP_SESSION" with _ | v <;> rw [hs] at hds
      · injection hds with hds
        subst hds
        decide
      · injection hds with hds
        subst hds
        exact he _ _ hs
    · injection hds with hds
      subst hds
      exact he _ _ hd
  · intro e he s hst
    unfold get_session_type at hst
    rcases hv : e.vars "XDG_SESSION_TYPE" with _ | v <;> rw [hv] at hst
    · by_cases hx : e.xOpen <;> by_cases hw : e.wlConnect <;>
        simp only [hx, hw, if_true, if_false, Bool.false_eq_true] at hst <;>
        · injection hst with hst
          subst hst
          decide
    · injection hst with hst
      subst hst
      exact capitalize_first_no_newline v (he _ _ hv)

/-- Witness for the amended C8: reading the OS pretty name from a
concrete `fgets`-shaped `/etc/os-release` yields the newline-free value
"Ubuntu 22.04". -/
theorem c8_amended_single_line_witness :
    '\n' ∉ ("Ubuntu 22.04" : String).data :=
  c8_amended_single_line.2.2.1 worldOsRelease
    ["NAME=\"Ubuntu\"", "PRETTY_NAME=\"Ubuntu 22.04\""] rfl
    (by decide) "Ubuntu 22.04" (by decide)

end Xfetch
